import Mathlib

/-!
Shallow embedding of the session aggregation and broadcast engine of
`src/index.js`: the in-memory session store, the scoring rules, the four
mutating socket handlers (`session:start`, `scan:result`, `quantity:adjust`,
`session:finish`) and the deferred eviction timer scheduled by finish.

Modelling choices:
* JS `Map` objects and plain-object item mappings become association lists
  `List (String × _)`; `Map.get`/`Map.set`/`delete` become `mapGet`,
  `mapSet`, `mapDelete`.
* Payload fields that may be absent (`undefined`) are `Option`s; the JS
  falsy test `!x` on a string field is `none` or `some ""`.
* JS numbers occurring in payloads (`quantity`, `delta`) and in point
  arithmetic are `Int`; timestamps (`Date.now()`) are `Nat` parameters
  passed to each handler invocation.
* `socket.emit`/`io.emit` become the list of `Event`s a handler returns;
  `Event.errorEvt` is the direct `error` emission, and its `Option` fields
  record exactly which identifier fields the JS payload object carries.
* The `setTimeout(..., 30000)` scheduled by `session:finish` becomes a
  pending eviction `(now + 30000, sessionId)` recorded in the state; the
  timer firing is the `fireEviction` step, which deletes by session id.
-/

/-- One entry of a session's item mapping (`session.items[key]`). -/
structure ItemEntry where
  name : String
  quantity : Int
  pointsPerItem : Int
  totalPoints : Int
  lastScanned : Nat
  deriving DecidableEq, Repr

/-- A scan session as stored in `activeSessions`.  `lastUpdate` is absent
(`none`) until the first scan or adjustment touches the session. -/
structure Session where
  id : String
  items : List (String × ItemEntry)
  totalItems : Int
  totalPoints : Int
  startTime : Nat
  socketId : String
  active : Bool
  lastUpdate : Option Nat
  deriving DecidableEq, Repr

/-- The server's mutable state: the `activeSessions` map plus the pending
`setTimeout` evictions scheduled by `session:finish` (fire time, session id). -/
structure ServerState where
  activeSessions : List (String × Session)
  pendingEvictions : List (Nat × String)
  deriving DecidableEq, Repr

/-- The state at process start: no sessions, no timers. -/
def initialState : ServerState := ⟨[], []⟩

/-- `Map.prototype.get` / property read on an association list. -/
def mapGet (m : List (String × α)) (k : String) : Option α :=
  match m with
  | [] => none
  | (k', v) :: rest => if k' = k then some v else mapGet rest k

/-- `Map.prototype.set` / property write: replace in place if the key is
present (keys stay unique), else append. -/
def mapSet (m : List (String × α)) (k : String) (v : α) : List (String × α) :=
  match m with
  | [] => [(k, v)]
  | (k', v') :: rest => if k' = k then (k, v) :: rest else (k', v') :: mapSet rest k v

/-- `Map.prototype.delete` / `delete obj[key]`. -/
def mapDelete (m : List (String × α)) (k : String) : List (String × α) :=
  match m with
  | [] => []
  | (k', v') :: rest => if k' = k then mapDelete rest k else (k', v') :: mapDelete rest k

/-- The `ITEM_POINTS` table of `src/index.js`. -/
def ITEM_POINTS : List (String × Int) :=
  [("APEL", 20), ("JERUK", 15), ("PISANG", 10), ("MANGGA", 25), ("DEFAULT", 10)]

/-- `ITEM_POINTS[key] || ITEM_POINTS.DEFAULT`: a missing key — and, by JS
truthiness, a zero table value — falls back to the default 10. -/
def pointsFor (key : String) : Int :=
  match mapGet ITEM_POINTS key with
  | some v => if v = 0 then 10 else v
  | none => 10

/-- `Math.max` on two integers, written so that the kernel evaluates it. -/
def jsMax (a b : Int) : Int := if a < b then b else a

/-- `String.prototype.toUpperCase` (`String(x).toUpperCase()`), char-wise,
written so that the kernel evaluates it. -/
def jsToUpper (s : String) : String := String.mk (s.data.map Char.toUpper)

/-- `Object.values(items).reduce((s, it) => s + it.quantity, 0)`. -/
def sumQuantities (items : List (String × ItemEntry)) : Int :=
  items.foldl (fun s p => s + p.2.quantity) 0

/-- `Object.values(items).reduce((s, it) => s + it.totalPoints, 0)`. -/
def sumPoints (items : List (String × ItemEntry)) : Int :=
  items.foldl (fun s p => s + p.2.totalPoints) 0

/-- The outbound messages a handler emits.  `errorEvt` is the direct
`socket.emit("error", …)`; its option fields are the identifier fields the
JS error payload object actually carries (`none` = field absent or
`undefined`). -/
inductive Event where
  | sessionStarted (sessionId : String) (timestamp : Nat)
  | sessionConfirmed (sessionId : String)
  | scanUpdate (sessionId : String) (item : ItemEntry) (totalItems totalPoints : Int)
  | inventoryUpdate (sessionId : String) (itemName : String) (quantity : Int) (lastUpdate : Nat)
  | scanConfirmed (item : ItemEntry) (totalPoints : Int)
  | quantityUpdated (sessionId : String) (itemName : String) (newQuantity : Int)
  | sessionFinished (sessionId : String) (totalItems totalPoints : Int)
      (duration : Int) (finishedAt : Nat)
  | inventoryReset (sessionId : String)
  | errorEvt (message : String) (sessionId : Option String) (itemName : Option String)
  deriving DecidableEq, Repr

/-- Whether an event list contains a direct `error` emission. -/
def hasError (evs : List Event) : Bool :=
  evs.any fun e => match e with
    | Event.errorEvt _ _ _ => true
    | _ => false

/-- JS falsiness of a possibly-absent string field (`!x`). -/
def strFalsy : Option String → Bool
  | none => true
  | some s => s = ""

/-- `session_${socket.id}_${Date.now()}`. -/
def genSessionId (socketId : String) (now : Nat) : String :=
  "session_" ++ socketId ++ "_" ++ toString now

/-- The fresh session object built by the `session:start` handler. -/
def freshSession (sessionId socketId : String) (now : Nat) : Session :=
  { id := sessionId, items := [], totalItems := 0, totalPoints := 0,
    startTime := now, socketId := socketId, active := true, lastUpdate := none }

/-- The `session:start` handler: resolve the effective id
(`data?.sessionId || generated`), install a fresh session unconditionally,
emit `session:started` to all and `session:confirmed` to the initiator. -/
def handleSessionStart (st : ServerState) (socketId : String)
    (requested : Option String) (now : Nat) : ServerState × List Event :=
  let sessionId := if strFalsy requested then genSessionId socketId now else requested.getD ""
  ({ st with activeSessions := mapSet st.activeSessions sessionId (freshSession sessionId socketId now) },
   [Event.sessionStarted sessionId now, Event.sessionConfirmed sessionId])

/-- The payload of a `scan:result` event. -/
structure ScanPayload where
  sessionId : Option String
  itemName : Option String
  quantity : Option Int
  deriving DecidableEq, Repr

/-- The `scan:result` handler.  Rejects falsy `sessionId`/`itemName` with an
`Invalid payload` error, rejects an id absent from the store with
`Session not found`, otherwise upper-cases the code, resolves points,
creates or increments the item entry, recomputes session totals from the
full mapping and emits `scan:update`, `inventory:update`, `scan:confirmed`. -/
def handleScanResult (st : ServerState) (d : ScanPayload) (now : Nat) :
    ServerState × List Event :=
  if strFalsy d.sessionId || strFalsy d.itemName then
    (st, [Event.errorEvt "Invalid payload" d.sessionId d.itemName])
  else
    let sid := d.sessionId.getD ""
    let qty := d.quantity.getD 1
    match mapGet st.activeSessions sid with
    | none => (st, [Event.errorEvt "Session not found" d.sessionId none])
    | some session =>
      let key := jsToUpper (d.itemName.getD "")
      let perItem := pointsFor key
      let addPoints := perItem * qty
      let entry : ItemEntry :=
        match mapGet session.items key with
        | some it =>
          { it with quantity := it.quantity + qty, totalPoints := it.totalPoints + addPoints }
        | none =>
          { name := key, quantity := qty, pointsPerItem := perItem,
            totalPoints := addPoints, lastScanned := now }
      let items := mapSet session.items key entry
      let session' : Session :=
        { session with
          items := items,
          totalItems := sumQuantities items,
          totalPoints := sumPoints items,
          lastUpdate := some now }
      ({ st with activeSessions := mapSet st.activeSessions sid session' },
       [Event.scanUpdate sid entry session'.totalItems session'.totalPoints,
        Event.inventoryUpdate sid key entry.quantity now,
        Event.scanConfirmed entry session'.totalPoints])

/-- The `quantity:adjust` handler.  Fails with `Session or item not found`
when the session id is absent or the session has no entry for the normalized
code; otherwise clamps the new quantity at zero, deletes the entry when it
reaches zero, recomputes totals and emits `quantity:updated` and
`inventory:update` (no direct acknowledgment). -/
def handleQuantityAdjust (st : ServerState) (sessionId itemName : Option String)
    (delta : Int) (now : Nat) : ServerState × List Event :=
  let key := jsToUpper (itemName.getD "")
  match sessionId with
  | none => (st, [Event.errorEvt "Session or item not found" none (some key)])
  | some sid =>
    match mapGet st.activeSessions sid with
    | none => (st, [Event.errorEvt "Session or item not found" (some sid) (some key)])
    | some session =>
      match mapGet session.items key with
      | none => (st, [Event.errorEvt "Session or item not found" (some sid) (some key)])
      | some item =>
        let newQty := jsMax 0 (item.quantity + delta)
        let items :=
          if newQty = 0 then mapDelete session.items key
          else mapSet session.items key
            { item with
              quantity := newQty,
              totalPoints := item.pointsPerItem * newQty,
              lastScanned := now }
        let session' : Session :=
          { session with
            items := items,
            totalItems := sumQuantities items,
            totalPoints := sumPoints items,
            lastUpdate := some now }
        ({ st with activeSessions := mapSet st.activeSessions sid session' },
         [Event.quantityUpdated sid key newQty,
          Event.inventoryUpdate sid key newQty now])

/-- The `session:finish` handler.  An absent session yields the error
`{ message: "Session not found" }` — note the payload carries no session id.
Otherwise it broadcasts the summary and `inventory:reset`, marks the session
inactive, and schedules eviction of the id 30000 ms later. -/
def handleSessionFinish (st : ServerState) (sessionId : Option String) (now : Nat) :
    ServerState × List Event :=
  match sessionId with
  | none => (st, [Event.errorEvt "Session not found" none none])
  | some sid =>
    match mapGet st.activeSessions sid with
    | none => (st, [Event.errorEvt "Session not found" none none])
    | some session =>
      ({ activeSessions := mapSet st.activeSessions sid { session with active := false },
         pendingEvictions := (now + 30000, sid) :: st.pendingEvictions },
       [Event.sessionFinished sid session.totalItems session.totalPoints
          ((now : Int) - (session.startTime : Int)) now,
        Event.inventoryReset sid])

/-- The `setTimeout` callback of `session:finish` firing:
`activeSessions.delete(sessionId)`, unconditionally, keyed by id only. -/
def fireEviction (st : ServerState) (sid : String) : ServerState :=
  { activeSessions := mapDelete st.activeSessions sid,
    pendingEvictions := st.pendingEvictions.eraseP (fun p => p.2 == sid) }

/-- One inbound event at the public interface (plus a timer firing). -/
inductive Op where
  | start (socketId : String) (requested : Option String) (now : Nat)
  | scan (d : ScanPayload) (now : Nat)
  | adjust (sessionId itemName : Option String) (delta : Int) (now : Nat)
  | finish (sessionId : Option String) (now : Nat)
  | evict (sessionId : String)
  deriving DecidableEq, Repr

/-- Dispatch one operation to its handler. -/
def applyOp (st : ServerState) (op : Op) : ServerState × List Event :=
  match op with
  | Op.start socketId requested now => handleSessionStart st socketId requested now
  | Op.scan d now => handleScanResult st d now
  | Op.adjust sessionId itemName delta now => handleQuantityAdjust st sessionId itemName delta now
  | Op.finish sessionId now => handleSessionFinish st sessionId now
  | Op.evict sid => (fireEviction st sid, [])

/-- Run a sequence of operations, keeping only the state. -/
def runOps (st : ServerState) (ops : List Op) : ServerState :=
  ops.foldl (fun s op => (applyOp s op).1) st

/-! ### The spec's data-model invariants -/

/-- `items[*].quantity >= 1`: every retained item entry of every stored
session has quantity at least 1. -/
def entryQtyInv (st : ServerState) : Prop :=
  ∀ p ∈ st.activeSessions, ∀ q ∈ p.2.items, 1 ≤ q.2.quantity

/-- `totalItems == sum(items[*].quantity)` and
`totalPoints == sum(items[*].totalPoints)` for every stored session. -/
def totalsInv (st : ServerState) : Prop :=
  ∀ p ∈ st.activeSessions,
    p.2.totalItems = sumQuantities p.2.items ∧ p.2.totalPoints = sumPoints p.2.items

/-- `items[*].totalPoints == quantity * pointsPerItem`, with `pointsPerItem`
always the scoring-table value of the entry's key (the table is static, so
this pins the value captured at first scan). -/
def pointsInv (st : ServerState) : Prop :=
  ∀ p ∈ st.activeSessions, ∀ q ∈ p.2.items,
    q.2.totalPoints = q.2.quantity * q.2.pointsPerItem ∧ q.2.pointsPerItem = pointsFor q.1

/-- The totals and points invariants together (both hold unconditionally). -/
def accInv (st : ServerState) : Prop :=
  totalsInv st ∧ pointsInv st

/-- An operation whose scan quantity, when the field is present, is ≥ 1. -/
def scanQtyOk : Op → Bool
  | Op.scan d _ => match d.quantity with | none => true | some q => decide (1 ≤ q)
  | _ => true



/-- Whether some error event of the list carries the given session id in its
payload. -/
def mentionsSessionId (evs : List Event) (sid : String) : Bool :=
  evs.any fun e => match e with
    | Event.errorEvt _ s _ => s == some sid
    | _ => false

/-- The failure condition of `quantity:adjust`: the session id is absent (or
the payload carries none) or the session has no entry for the normalized
code. -/
def adjustTargetMissing (st : ServerState) (sessionId itemName : Option String) : Prop :=
  match sessionId with
  | none => True
  | some sid =>
    match mapGet st.activeSessions sid with
    | none => True
    | some s => mapGet s.items (jsToUpper (itemName.getD "")) = none

/-- The failure condition of `session:finish`: no stored session matches the
id (or the payload carries none). -/
def finishTargetMissing (st : ServerState) (sessionId : Option String) : Prop :=
  match sessionId with
  | none => True
  | some sid => mapGet st.activeSessions sid = none

/-! ### Concrete runs used by witnesses and counterexamples -/

/-- A start, a scan of `APEL` ×2, a defaulted-quantity scan of `apel`, and an
adjustment by −1. -/
def opsDemo : List Op :=
  [Op.start "sockA" (some "s1") 0,
   Op.scan ⟨some "s1", some "APEL", some 2⟩ 1,
   Op.scan ⟨some "s1", some "apel", none⟩ 2,
   Op.adjust (some "s1") (some "apel") (-1) 3]

/-- A start followed by a `scan:result` whose quantity field is 0. -/
def opsZeroQty : List Op :=
  [Op.start "sockA" (some "s1") 0, Op.scan ⟨some "s1", some "apel", some 0⟩ 1]

/-- The `APEL` entry after `opsDemo`: 3 scanned, adjusted down to 2. -/
def entryDemo : ItemEntry :=
  { name := "APEL", quantity := 2, pointsPerItem := 20, totalPoints := 40, lastScanned := 3 }

/-- Session `s1` as stored after `opsDemo`. -/
def sessDemo : Session :=
  { id := "s1", items := [("APEL", entryDemo)], totalItems := 2, totalPoints := 40,
    startTime := 0, socketId := "sockA", active := true, lastUpdate := some 3 }

/-- The state after a start and one scan of `APEL` ×2 on session `s1`. -/
def stWithData : ServerState :=
  runOps initialState
    [Op.start "sockA" (some "s1") 0, Op.scan ⟨some "s1", some "APEL", some 2⟩ 1]

/-- The `APEL` entry stored in `stWithData`. -/
def entryData : ItemEntry :=
  { name := "APEL", quantity := 2, pointsPerItem := 20, totalPoints := 40, lastScanned := 1 }

/-- Session `s1` as stored in `stWithData`. -/
def sessData : Session :=
  { id := "s1", items := [("APEL", entryData)], totalItems := 2, totalPoints := 40,
    startTime := 0, socketId := "sockA", active := true, lastUpdate := some 1 }

/-- The state after a start and a finish of session `s1`: the session is
still stored, inactive, with an eviction pending at 30005. -/
def stFinished : ServerState :=
  runOps initialState [Op.start "sockA" (some "s1") 0, Op.finish (some "s1") 5]

/-! ### Association-list lemmas -/

theorem jsMax_eq_max (a b : Int) : jsMax a b = max a b := by
  unfold jsMax
  split_ifs <;> omega

theorem mapGet_mapSet (m : List (String × α)) (k : String) (v : α) (k' : String) :
    mapGet (mapSet m k v) k' = if k' = k then some v else mapGet m k' := by
  induction m with
  | nil =>
    simp only [mapSet, mapGet]
    by_cases h : k' = k
    · subst h; simp
    · rw [if_neg (fun hh => h hh.symm), if_neg h]
  | cons q rest ih =>
    obtain ⟨a, b⟩ := q
    simp only [mapSet]
    by_cases h1 : a = k <;> by_cases h2 : k' = k <;>
      simp_all [mapGet] <;> split_ifs <;> simp_all

theorem mapGet_mapDelete (m : List (String × α)) (k : String) (k' : String) :
    mapGet (mapDelete m k) k' = if k' = k then none else mapGet m k' := by
  induction m with
  | nil => simp [mapGet, mapDelete]
  | cons q rest ih =>
    obtain ⟨a, b⟩ := q
    simp only [mapDelete]
    by_cases h1 : a = k <;> by_cases h2 : k' = k <;>
      simp_all [mapGet] <;> split_ifs <;> simp_all

theorem mem_of_mem_mapSet {m : List (String × α)} {k : String} {v : α} {p : String × α}
    (hp : p ∈ mapSet m k v) : p = (k, v) ∨ p ∈ m := by
  induction m with
  | nil => simpa [mapSet] using hp
  | cons q rest ih =>
    obtain ⟨a, b⟩ := q
    simp only [mapSet] at hp
    by_cases h1 : a = k
    · simp only [h1, if_pos rfl] at hp
      rcases List.mem_cons.mp hp with h | h
      · exact Or.inl h
      · exact Or.inr (List.mem_cons_of_mem _ h)
    · simp only [if_neg h1] at hp
      rcases List.mem_cons.mp hp with h | h
      · exact Or.inr (h ▸ List.mem_cons_self _ _)
      · rcases ih h with h' | h'
        · exact Or.inl h'
        · exact Or.inr (List.mem_cons_of_mem _ h')

theorem mem_of_mem_mapDelete {m : List (String × α)} {k : String} {p : String × α}
    (hp : p ∈ mapDelete m k) : p ∈ m := by
  induction m with
  | nil => simpa [mapDelete] using hp
  | cons q rest ih =>
    obtain ⟨a, b⟩ := q
    simp only [mapDelete] at hp
    by_cases h1 : a = k
    · simp only [if_pos h1] at hp
      exact List.mem_cons_of_mem _ (ih hp)
    · simp only [if_neg h1] at hp
      rcases List.mem_cons.mp hp with h | h
      · exact h ▸ List.mem_cons_self _ _
      · exact List.mem_cons_of_mem _ (ih h)

theorem mem_of_mapGet_eq_some {m : List (String × α)} {k : String} {v : α}
    (h : mapGet m k = some v) : (k, v) ∈ m := by
  induction m with
  | nil => simp [mapGet] at h
  | cons q rest ih =>
    obtain ⟨a, b⟩ := q
    simp only [mapGet] at h
    by_cases h1 : a = k
    · simp only [if_pos h1] at h
      exact h1 ▸ (by injection h with h2; rw [h2]; exact List.mem_cons_self _ _)
    · simp only [if_neg h1] at h
      exact List.mem_cons_of_mem _ (ih h)

theorem forall_mem_mapSet {m : List (String × α)} {k : String} {v : α} {P : String × α → Prop}
    (hm : ∀ p ∈ m, P p) (hv : P (k, v)) : ∀ p ∈ mapSet m k v, P p := by
  intro p hp
  rcases mem_of_mem_mapSet hp with h | h
  · exact h ▸ hv
  · exact hm p h

theorem forall_mem_mapDelete {m : List (String × α)} {k : String} {P : String × α → Prop}
    (hm : ∀ p ∈ m, P p) : ∀ p ∈ mapDelete m k, P p :=
  fun p hp => hm p (mem_of_mem_mapDelete hp)

theorem scanQtyOk_getD {d : ScanPayload} {now : Nat}
    (h : scanQtyOk (Op.scan d now) = true) : 1 ≤ d.quantity.getD 1 := by
  cases hq : d.quantity with
  | none => simp
  | some q =>
    have := h
    simp only [scanQtyOk, hq] at this
    simpa using of_decide_eq_true this

/-! ### Preservation of the invariants by every handler -/

theorem accInv_start (st : ServerState) (sock : String) (req : Option String) (now : Nat)
    (h : accInv st) : accInv (handleSessionStart st sock req now).1 := by
  obtain ⟨hT, hP⟩ := h
  constructor
  · intro p hp
    rcases mem_of_mem_mapSet hp with rfl | hmem
    · exact ⟨rfl, rfl⟩
    · exact hT p hmem
  · intro p hp
    rcases mem_of_mem_mapSet hp with rfl | hmem
    · intro q hq; simp [freshSession] at hq
    · exact hP p hmem

theorem accInv_scan (st : ServerState) (d : ScanPayload) (now : Nat)
    (h : accInv st) : accInv (handleScanResult st d now).1 := by
  obtain ⟨hT, hP⟩ := h
  unfold handleScanResult
  split
  · exact ⟨hT, hP⟩
  · dsimp only
    split
    · exact ⟨hT, hP⟩
    · rename_i session heq
      have hmemS : (d.sessionId.getD "", session) ∈ st.activeSessions :=
        mem_of_mapGet_eq_some heq
      constructor
      · intro p hp
        rcases mem_of_mem_mapSet hp with rfl | hmem
        · exact ⟨rfl, rfl⟩
        · exact hT p hmem
      · intro p hp
        rcases mem_of_mem_mapSet hp with rfl | hmem
        · intro q hq
          rcases mem_of_mem_mapSet hq with rfl | hqmem
          · dsimp only
            split
            · rename_i it hit
              have hold := hP _ hmemS _ (mem_of_mapGet_eq_some hit)
              obtain ⟨h1, h2⟩ := hold
              constructor
              · dsimp only; rw [h1, h2]; ring
              · exact h2
            · exact ⟨by dsimp only; ring, rfl⟩
          · exact hP _ hmemS _ hqmem
        · exact hP p hmem

theorem accInv_adjust (st : ServerState) (sessionId itemName : Option String)
    (delta : Int) (now : Nat) (h : accInv st) :
    accInv (handleQuantityAdjust st sessionId itemName delta now).1 := by
  obtain ⟨hT, hP⟩ := h
  unfold handleQuantityAdjust
  split
  · exact ⟨hT, hP⟩
  · rename_i sid
    split
    · exact ⟨hT, hP⟩
    · rename_i session heq
      dsimp only
      split
      · exact ⟨hT, hP⟩
      · rename_i item hit
        have hmemS : (sid, session) ∈ st.activeSessions := mem_of_mapGet_eq_some heq
        have hmemI := mem_of_mapGet_eq_some hit
        obtain ⟨h1, h2⟩ := hP _ hmemS _ hmemI
        constructor
        · intro p hp
          rcases mem_of_mem_mapSet hp with rfl | hmem
          · exact ⟨rfl, rfl⟩
          · exact hT p hmem
        · intro p hp
          rcases mem_of_mem_mapSet hp with rfl | hmem
          · intro q hq
            dsimp only at hq
            split at hq
            · exact hP _ hmemS _ (mem_of_mem_mapDelete hq)
            · rcases mem_of_mem_mapSet hq with rfl | hqmem
              · exact ⟨by dsimp only; ring, h2⟩
              · exact hP _ hmemS _ hqmem
          · exact hP p hmem

theorem accInv_finish (st : ServerState) (sessionId : Option String) (now : Nat)
    (h : accInv st) : accInv (handleSessionFinish st sessionId now).1 := by
  obtain ⟨hT, hP⟩ := h
  unfold handleSessionFinish
  split
  · exact ⟨hT, hP⟩
  · rename_i sid
    split
    · exact ⟨hT, hP⟩
    · rename_i session heq
      have hmemS : (sid, session) ∈ st.activeSessions := mem_of_mapGet_eq_some heq
      constructor
      · intro p hp
        rcases mem_of_mem_mapSet hp with rfl | hmem
        · exact ⟨(hT _ hmemS).1, (hT _ hmemS).2⟩
        · exact hT p hmem
      · intro p hp
        rcases mem_of_mem_mapSet hp with rfl | hmem
        · exact fun q hq => hP _ hmemS q hq
        · exact hP p hmem

theorem accInv_evict (st : ServerState) (sid : String)
    (h : accInv st) : accInv (fireEviction st sid) := by
  obtain ⟨hT, hP⟩ := h
  exact ⟨fun p hp => hT p (mem_of_mem_mapDelete hp),
         fun p hp => hP p (mem_of_mem_mapDelete hp)⟩

theorem accInv_applyOp (st : ServerState) (op : Op) (h : accInv st) :
    accInv (applyOp st op).1 := by
  cases op with
  | start sock req now => exact accInv_start st sock req now h
  | scan d now => exact accInv_scan st d now h
  | adjust sessionId itemName delta now => exact accInv_adjust st sessionId itemName delta now h
  | finish sessionId now => exact accInv_finish st sessionId now h
  | evict sid => exact accInv_evict st sid h

theorem accInv_runOps (ops : List Op) (st : ServerState) (h : accInv st) :
    accInv (runOps st ops) := by
  induction ops generalizing st with
  | nil => exact h
  | cons op ops ih => exact ih _ (accInv_applyOp st op h)

theorem accInv_initial : accInv initialState :=
  ⟨fun p hp => by simp [initialState] at hp, fun p hp => by simp [initialState] at hp⟩

theorem entryQtyInv_start (st : ServerState) (sock : String) (req : Option String) (now : Nat)
    (h : entryQtyInv st) : entryQtyInv (handleSessionStart st sock req now).1 := by
  intro p hp
  rcases mem_of_mem_mapSet hp with rfl | hmem
  · intro q hq; simp [freshSession] at hq
  · exact h p hmem

theorem entryQtyInv_scan (st : ServerState) (d : ScanPayload) (now : Nat)
    (hq : scanQtyOk (Op.scan d now) = true) (h : entryQtyInv st) :
    entryQtyInv (handleScanResult st d now).1 := by
  have hqty : 1 ≤ d.quantity.getD 1 := scanQtyOk_getD hq
  unfold handleScanResult
  split
  · exact h
  · dsimp only
    split
    · exact h
    · rename_i session heq
      have hmemS : (d.sessionId.getD "", session) ∈ st.activeSessions :=
        mem_of_mapGet_eq_some heq
      intro p hp
      rcases mem_of_mem_mapSet hp with rfl | hmem
      · intro q hqm
        rcases mem_of_mem_mapSet hqm with rfl | hqmem
        · dsimp only
          split
          · rename_i it hit
            have hold : 1 ≤ it.quantity := h _ hmemS _ (mem_of_mapGet_eq_some hit)
            show 1 ≤ it.quantity + d.quantity.getD 1
            omega
          · show 1 ≤ d.quantity.getD 1
            exact hqty
        · exact h _ hmemS _ hqmem
      · exact h p hmem

theorem entryQtyInv_adjust (st : ServerState) (sessionId itemName : Option String)
    (delta : Int) (now : Nat) (h : entryQtyInv st) :
    entryQtyInv (handleQuantityAdjust st sessionId itemName delta now).1 := by
  unfold handleQuantityAdjust
  split
  · exact h
  · rename_i sid
    split
    · exact h
    · rename_i session heq
      dsimp only
      split
      · exact h
      · rename_i item hit
        have hmemS : (sid, session) ∈ st.activeSessions := mem_of_mapGet_eq_some heq
        intro p hp
        rcases mem_of_mem_mapSet hp with rfl | hmem
        · intro q hqm
          dsimp only at hqm
          split at hqm
          · exact h _ hmemS _ (mem_of_mem_mapDelete hqm)
          · rename_i hne
            rcases mem_of_mem_mapSet hqm with rfl | hqmem
            · show 1 ≤ jsMax 0 (item.quantity + delta)
              simp only [jsMax_eq_max] at hne ⊢
              omega
            · exact h _ hmemS _ hqmem
        · exact h p hmem

theorem entryQtyInv_finish (st : ServerState) (sessionId : Option String) (now : Nat)
    (h : entryQtyInv st) : entryQtyInv (handleSessionFinish st sessionId now).1 := by
  unfold handleSessionFinish
  split
  · exact h
  · rename_i sid
    split
    · exact h
    · rename_i session heq
      have hmemS : (sid, session) ∈ st.activeSessions := mem_of_mapGet_eq_some heq
      intro p hp
      rcases mem_of_mem_mapSet hp with rfl | hmem
      · exact fun q hqm => h _ hmemS q hqm
      · exact h p hmem

theorem entryQtyInv_evict (st : ServerState) (sid : String)
    (h : entryQtyInv st) : entryQtyInv (fireEviction st sid) :=
  fun p hp => h p (mem_of_mem_mapDelete hp)

theorem entryQtyInv_applyOp (st : ServerState) (op : Op)
    (hop : scanQtyOk op = true) (h : entryQtyInv st) : entryQtyInv (applyOp st op).1 := by
  cases op with
  | start sock req now => exact entryQtyInv_start st sock req now h
  | scan d now => exact entryQtyInv_scan st d now hop h
  | adjust sessionId itemName delta now => exact entryQtyInv_adjust st sessionId itemName delta now h
  | finish sessionId now => exact entryQtyInv_finish st sessionId now h
  | evict sid => exact entryQtyInv_evict st sid h

theorem entryQtyInv_runOps (ops : List Op) (st : ServerState)
    (hops : ∀ op ∈ ops, scanQtyOk op = true) (h : entryQtyInv st) :
    entryQtyInv (runOps st ops) := by
  induction ops generalizing st with
  | nil => exact h
  | cons op ops ih =>
    exact ih _ (fun o ho => hops o (List.mem_cons_of_mem _ ho))
      (entryQtyInv_applyOp st op (hops op (List.mem_cons_self _ _)) h)

theorem entryQtyInv_initial : entryQtyInv initialState :=
  fun p hp => by simp [initialState] at hp

/-! ### The claims -/

/-- C1 (amended): provided every `scan:result` quantity field, when present,
is at least 1, then after any sequence of operations from the initial state
every retained item entry has quantity ≥ 1 — an entry reaching 0 through an
adjustment is removed, never retained.  (As originally stated, over all
public inputs, the claim is false: see the counterexample, a scan whose
quantity field is 0.) -/
theorem C1_entry_quantities_positive (ops : List Op)
    (h : ∀ op ∈ ops, scanQtyOk op = true) :
    entryQtyInv (runOps initialState ops) :=
  entryQtyInv_runOps ops initialState h entryQtyInv_initial

/-- C1 witness: the quantity invariant holds concretely after a start, two
scans and an adjustment. -/
theorem C1_entry_quantities_positive_witness :
    entryQtyInv (runOps initialState opsDemo) :=
  C1_entry_quantities_positive opsDemo (by decide)

/-- C1 counterexample: a `scan:result` carrying `quantity: 0` on a fresh
code stores an entry with quantity 0 and retains it, so the invariant fails
for arbitrary public inputs. -/
theorem C1_zero_quantity_scan_counterexample :
    ¬ entryQtyInv (runOps initialState opsZeroQty) := by
  unfold entryQtyInv
  decide

/-- C4 (confirmed): in every state reachable from the initial state, every
item entry satisfies `totalPoints = quantity * pointsPerItem`, and its
`pointsPerItem` equals the scoring-table value of its code.  The table is
static, so this is exactly the value resolved at the first scan of the code;
repeat scans accumulate points at that same rate and never change it. -/
theorem C4_points_per_item_fixed (ops : List Op) (sid : String) (s : Session)
    (k : String) (e : ItemEntry)
    (hs : mapGet (runOps initialState ops).activeSessions sid = some s)
    (he : mapGet s.items k = some e) :
    e.totalPoints = e.quantity * e.pointsPerItem ∧ e.pointsPerItem = pointsFor k :=
  (accInv_runOps ops initialState accInv_initial).2 _ (mem_of_mapGet_eq_some hs)
    _ (mem_of_mapGet_eq_some he)

/-- C4 witness: the `APEL` entry left by `opsDemo` (scanned twice under two
spellings, then adjusted) satisfies the points arithmetic at the
table value 20. -/
theorem C4_points_per_item_fixed_witness :
    entryDemo.totalPoints = entryDemo.quantity * entryDemo.pointsPerItem ∧
    entryDemo.pointsPerItem = pointsFor "APEL" :=
  C4_points_per_item_fixed opsDemo "s1" sessDemo "APEL" entryDemo (by decide) (by decide)

/-- C5 (confirmed): after any sequence of operations from the initial state,
every stored session's `totalItems` and `totalPoints` equal the sums of
quantity and totalPoints over its current item mapping — the handlers
recompute both in full from the mapping after each mutation. -/
theorem C5_totals_match_mapping (ops : List Op) :
    totalsInv (runOps initialState ops) :=
  (accInv_runOps ops initialState accInv_initial).1

/-- C2 (amended): `scan:result` fails with the `Session not found` error —
leaving the store unchanged and emitting nothing but the direct error —
exactly when the session id is absent from the store.  The active flag is
not consulted: a finished session still stored during the grace period is
mutated by a scan rather than rejected (see the counterexample). -/
theorem C2_scan_absent_session_fails (st : ServerState) (sid rawName : String)
    (q : Option Int) (now : Nat) (hsid : sid ≠ "") (hname : rawName ≠ "")
    (h : mapGet st.activeSessions sid = none) :
    handleScanResult st ⟨some sid, some rawName, q⟩ now
      = (st, [Event.errorEvt "Session not found" (some sid) none]) := by
  unfold handleScanResult
  simp [strFalsy, hsid, hname, h]

/-- C2 witness: a scan against an id missing from the store fails with the
error and no mutation. -/
theorem C2_scan_absent_session_fails_witness :
    handleScanResult initialState ⟨some "ghost", some "apel", none⟩ 0
      = (initialState, [Event.errorEvt "Session not found" (some "ghost") none]) :=
  C2_scan_absent_session_fails initialState "ghost" "apel" none 0
    (by decide) (by decide) (by decide)

/-- C2 counterexample: after `session:finish`, session `s1` is stored with
`active = false`, yet a `scan:result` against it emits no error and mutates
it (its item count becomes 1) — contradicting the claim that scans against
non-active sessions fail without mutation. -/
theorem C2_inactive_session_scan_counterexample :
    (mapGet stFinished.activeSessions "s1").map Session.active = some false ∧
    hasError (handleScanResult stFinished ⟨some "s1", some "apel", some 1⟩ 6).2 = false ∧
    (mapGet (handleScanResult stFinished ⟨some "s1", some "apel", some 1⟩ 6).1.activeSessions
        "s1").map Session.totalItems = some 1 := by
  decide

/-- C3 (amended): `session:start` never fails with `DuplicateSession`: for a
non-empty requested id it unconditionally installs a fresh session object
under that id, replacing any session already stored there.  At most one
session per id exists at a time because the store is a map, not because
duplicates are rejected. -/
theorem C3_start_replaces_existing (st : ServerState) (sock sid : String) (now : Nat)
    (h : sid ≠ "") :
    (handleSessionStart st sock (some sid) now).1.activeSessions
      = mapSet st.activeSessions sid (freshSession sid sock now) ∧
    hasError (handleSessionStart st sock (some sid) now).2 = false := by
  unfold handleSessionStart
  simp [strFalsy, h, hasError]

/-- C3 witness: restarting `s1` over a session holding data replaces it and
emits no error. -/
theorem C3_start_replaces_existing_witness :
    (handleSessionStart stWithData "sockB" (some "s1") 10).1.activeSessions
      = mapSet stWithData.activeSessions "s1" (freshSession "s1" "sockB" 10) ∧
    hasError (handleSessionStart stWithData "sockB" (some "s1") 10).2 = false :=
  C3_start_replaces_existing stWithData "sockB" "s1" 10 (by decide)

/-- C3 counterexample: starting with id `s1` while an active `s1` holding two
items exists emits no `DuplicateSession` error and installs a fresh empty
session in its place. -/
theorem C3_duplicate_start_counterexample :
    (mapGet stWithData.activeSessions "s1").map Session.totalItems = some 2 ∧
    hasError (handleSessionStart stWithData "sockB" (some "s1") 10).2 = false ∧
    mapGet (handleSessionStart stWithData "sockB" (some "s1") 10).1.activeSessions "s1"
      = some (freshSession "s1" "sockB" 10) := by
  decide

/-- C6 (confirmed): adjusting an existing item by any integer delta yields
quantity `max 0 (current + delta)` — never negative; at 0 the entry is
deleted from the mapping, otherwise the entry's quantity, totalPoints
(= pointsPerItem * new quantity) and lastScanned are updated. -/
theorem C6_adjust_clamps_at_zero (st : ServerState) (sid rawName : String)
    (delta : Int) (now : Nat) (s : Session) (e : ItemEntry)
    (hs : mapGet st.activeSessions sid = some s)
    (he : mapGet s.items (jsToUpper rawName) = some e) :
    0 ≤ max 0 (e.quantity + delta) ∧
    (mapGet (handleQuantityAdjust st (some sid) (some rawName) delta now).1.activeSessions
        sid).map (fun s' => mapGet s'.items (jsToUpper rawName))
      = some (if max 0 (e.quantity + delta) = 0 then none
              else some { e with
                quantity := max 0 (e.quantity + delta),
                totalPoints := e.pointsPerItem * max 0 (e.quantity + delta),
                lastScanned := now }) := by
  constructor
  · exact le_max_left 0 _
  · unfold handleQuantityAdjust
    simp only [Option.getD_some, hs, he, jsMax_eq_max]
    rw [mapGet_mapSet, if_pos rfl, Option.map_some']
    by_cases hz : max 0 (e.quantity + delta) = 0
    · rw [if_pos hz, if_pos hz, mapGet_mapDelete, if_pos rfl]
    · rw [if_neg hz, if_neg hz, mapGet_mapSet, if_pos rfl]

/-- C6 witness: adjusting `APEL` (quantity 2) by −10 clamps at zero and
removes the entry. -/
theorem C6_adjust_clamps_at_zero_witness :
    0 ≤ max 0 (entryDemo.quantity + (-10)) ∧
    (mapGet (handleQuantityAdjust (runOps initialState opsDemo) (some "s1") (some "apel")
        (-10) 9).1.activeSessions "s1").map (fun s' => mapGet s'.items (jsToUpper "apel"))
      = some (if max 0 (entryDemo.quantity + (-10)) = 0 then none
              else some { entryDemo with
                quantity := max 0 (entryDemo.quantity + (-10)),
                totalPoints := entryDemo.pointsPerItem * max 0 (entryDemo.quantity + (-10)),
                lastScanned := 9 }) :=
  C6_adjust_clamps_at_zero (runOps initialState opsDemo) "s1" "apel" (-10) 9 sessDemo
    entryDemo (by decide) (by decide)

/-- C7 (confirmed): when the session is missing or has no entry for the
normalized code, `quantity:adjust` emits only the direct
`Session or item not found` error and leaves the state untouched; and in all
cases the handler never creates an item entry — every code present after the
call was already present before (only `scan:result` creates entries). -/
theorem C7_adjust_missing_fails_no_create (st : ServerState)
    (sessionId itemName : Option String) (delta : Int) (now : Nat) :
    (adjustTargetMissing st sessionId itemName →
      handleQuantityAdjust st sessionId itemName delta now
        = (st, [Event.errorEvt "Session or item not found" sessionId
            (some (jsToUpper (itemName.getD "")))])) ∧
    (∀ sid s', mapGet (handleQuantityAdjust st sessionId itemName delta now).1.activeSessions
        sid = some s' →
      ∀ k, (mapGet s'.items k).isSome = true →
        ∃ s0, mapGet st.activeSessions sid = some s0 ∧ (mapGet s0.items k).isSome = true) := by
  constructor
  · intro h
    unfold adjustTargetMissing at h
    unfold handleQuantityAdjust
    match hm : sessionId with
    | none => rfl
    | some sid =>
      simp only at h
      cases hg : mapGet st.activeSessions sid with
      | none => simp only [hg]
      | some s =>
        rw [hg] at h
        simp only [hg, h]
  · intro sid s' hlook k hk
    unfold handleQuantityAdjust at hlook
    cases hm : sessionId with
    | none =>
      rw [hm] at hlook
      simp only at hlook
      exact ⟨s', hlook, hk⟩
    | some sid0 =>
      rw [hm] at hlook
      cases hg : mapGet st.activeSessions sid0 with
      | none =>
        simp only [hg] at hlook
        exact ⟨s', hlook ▸ rfl, hk⟩
      | some session =>
        simp only [hg] at hlook
        cases hit : mapGet session.items (jsToUpper (itemName.getD "")) with
        | none =>
          simp only [hit] at hlook
          exact ⟨s', hlook ▸ rfl, hk⟩
        | some item =>
          simp only [hit] at hlook
          rw [mapGet_mapSet] at hlook
          by_cases hsid : sid = sid0
          · rw [if_pos hsid] at hlook
            injection hlook with h1
            subst h1
            subst hsid
            refine ⟨session, hg, ?_⟩
            dsimp only at hk
            split at hk
            · rw [mapGet_mapDelete] at hk
              split_ifs at hk with hkk
              · simp at hk
              · exact hk
            · rw [mapGet_mapSet] at hk
              split_ifs at hk with hkk
              · rw [hkk, hit]; rfl
              · exact hk
          · rw [if_neg hsid] at hlook
            exact ⟨s', hlook, hk⟩

/-- C8 (amended): every validation failure leaves the store unchanged and
emits exactly one direct `error` event describing the condition; the scan
and adjust error payloads carry the offending identifiers, but the finish
handler's `Session not found` payload carries only the message and no
identifier fields (the counterexample). -/
theorem C8_validation_error_replies (st : ServerState) (d : ScanPayload)
    (sessionId itemName : Option String) (delta : Int) (now : Nat) :
    ((strFalsy d.sessionId || strFalsy d.itemName) = true →
      handleScanResult st d now
        = (st, [Event.errorEvt "Invalid payload" d.sessionId d.itemName])) ∧
    ((strFalsy d.sessionId || strFalsy d.itemName) = false →
      mapGet st.activeSessions (d.sessionId.getD "") = none →
      handleScanResult st d now
        = (st, [Event.errorEvt "Session not found" d.sessionId none])) ∧
    (adjustTargetMissing st sessionId itemName →
      handleQuantityAdjust st sessionId itemName delta now
        = (st, [Event.errorEvt "Session or item not found" sessionId
            (some (jsToUpper (itemName.getD "")))])) ∧
    (finishTargetMissing st sessionId →
      handleSessionFinish st sessionId now
        = (st, [Event.errorEvt "Session not found" none none])) := by
  refine ⟨?_, ?_, ?_, ?_⟩
  · intro h
    unfold handleScanResult
    rw [if_pos h]
  · intro h hg
    unfold handleScanResult
    rw [if_neg (by simp [h])]
    simp only [hg]
  · intro h
    unfold adjustTargetMissing at h
    unfold handleQuantityAdjust
    match hm : sessionId with
    | none => rfl
    | some sid =>
      simp only at h
      cases hg : mapGet st.activeSessions sid with
      | none => simp only [hg]
      | some s =>
        rw [hg] at h
        simp only [hg, h]
  · intro h
    unfold finishTargetMissing at h
    unfold handleSessionFinish
    match hm : sessionId with
    | none => rfl
    | some sid =>
      simp only at h
      simp only [h]

/-- C8 counterexample: `session:finish` on the unknown id `"ghost"` does emit
a direct error, but the error payload carries no identifier field at all —
it does not describe the offending session id. -/
theorem C8_finish_error_counterexample :
    hasError (handleSessionFinish initialState (some "ghost") 7).2 = true ∧
    mentionsSessionId (handleSessionFinish initialState (some "ghost") 7).2 "ghost" = false := by
  decide

/-- C9 (confirmed): finishing a stored session marks it inactive in place and
schedules an eviction of its id 30000 ms later; whenever that eviction fires
the id is removed from the store, and a subsequent lookup of the id (here via
`session:finish` itself) fails with `Session not found`. -/
theorem C9_finish_marks_inactive_then_evicts (st : ServerState) (sid : String)
    (s : Session) (now tlater : Nat)
    (hs : mapGet st.activeSessions sid = some s) :
    mapGet (handleSessionFinish st (some sid) now).1.activeSessions sid
      = some { s with active := false } ∧
    (now + 30000, sid) ∈ (handleSessionFinish st (some sid) now).1.pendingEvictions ∧
    (∀ st2 : ServerState, mapGet (fireEviction st2 sid).activeSessions sid = none) ∧
    (∀ st2 : ServerState, handleSessionFinish (fireEviction st2 sid) (some sid) tlater
      = (fireEviction st2 sid, [Event.errorEvt "Session not found" none none])) := by
  refine ⟨?_, ?_, ?_, ?_⟩
  · unfold handleSessionFinish
    simp only [hs]
    rw [mapGet_mapSet, if_pos rfl]
  · unfold handleSessionFinish
    simp only [hs]
    exact List.mem_cons_self _ _
  · intro st2
    unfold fireEviction
    rw [mapGet_mapDelete, if_pos rfl]
  · intro st2
    have hnone : mapGet (fireEviction st2 sid).activeSessions sid = none := by
      unfold fireEviction
      rw [mapGet_mapDelete, if_pos rfl]
    unfold handleSessionFinish
    simp only [hnone]

/-- C9 witness: finishing `s1` (which holds data) marks it inactive,
schedules the eviction at 50 + 30000, and after the eviction fires the
lookup fails. -/
theorem C9_finish_marks_inactive_then_evicts_witness :
    mapGet (handleSessionFinish stWithData (some "s1") 50).1.activeSessions "s1"
      = some { sessData with active := false } ∧
    (50 + 30000, "s1") ∈ (handleSessionFinish stWithData (some "s1") 50).1.pendingEvictions ∧
    (∀ st2 : ServerState, mapGet (fireEviction st2 "s1").activeSessions "s1" = none) ∧
    (∀ st2 : ServerState, handleSessionFinish (fireEviction st2 "s1") (some "s1") 99
      = (fireEviction st2 "s1", [Event.errorEvt "Session not found" none none])) :=
  C9_finish_marks_inactive_then_evicts stWithData "s1" sessData 50 99 (by decide)

/-- C10 (confirmed): the pending eviction scheduled by a finish is keyed by
session id only and is not cancelled by `session:start`: starting a new
session under the same id leaves the timer pending, and when it fires it
deletes the new, still-active session — even though that session was never
finished. -/
theorem C10_stale_timer_evicts_new_session (st : ServerState) (sid sock : String)
    (now t : Nat) (hsid : sid ≠ "") (hp : (t, sid) ∈ st.pendingEvictions) :
    (t, sid) ∈ (handleSessionStart st sock (some sid) now).1.pendingEvictions ∧
    mapGet (handleSessionStart st sock (some sid) now).1.activeSessions sid
      = some (freshSession sid sock now) ∧
    (freshSession sid sock now).active = true ∧
    mapGet (fireEviction (handleSessionStart st sock (some sid) now).1 sid).activeSessions
      sid = none := by
  refine ⟨?_, ?_, rfl, ?_⟩
  · unfold handleSessionStart
    simpa using hp
  · unfold handleSessionStart
    simp only [strFalsy, hsid]
    rw [mapGet_mapSet]
    simp [hsid]
  · unfold fireEviction
    rw [mapGet_mapDelete, if_pos rfl]

/-- C10 witness: after finishing `s1` an eviction is pending at 30005;
restarting `s1` at time 40 leaves the timer pending, and its firing removes
the fresh, never-finished session. -/
theorem C10_stale_timer_evicts_new_session_witness :
    (30005, "s1") ∈ (handleSessionStart stFinished "sockB" (some "s1") 40).1.pendingEvictions ∧
    mapGet (handleSessionStart stFinished "sockB" (some "s1") 40).1.activeSessions "s1"
      = some (freshSession "s1" "sockB" 40) ∧
    (freshSession "s1" "sockB" 40).active = true ∧
    mapGet (fireEviction (handleSessionStart stFinished "sockB" (some "s1") 40).1
      "s1").activeSessions "s1" = none :=
  C10_stale_timer_evicts_new_session stFinished "s1" "sockB" 40 30005
    (by decide) (by decide)
